import Mathlib

/-!
Verification of the Frame Pipeline Coordinator of ASCII-Studio
(`src/App.tsx`, the frame-indexed `App` component).

The embedding translates the coordinator, frame buffer, scheduler and the
relevant event handlers into a single-threaded event-interleaving semantics:
the component state is a structure, and every resumption point of the
original asynchronous code (an `await` returning, a timer firing, an
animation-frame callback, a user edit) is an event acting on that state.
This matches the cooperative event-loop model of section 5 of the spec:
concurrency is interleaving of completions, never parallel mutation.

Numeric model: the JavaScript code stores `frameMetadata.current.size` as the
result of the float division `data.length / count`.  Every number that can
arise there is a ratio of two machine-size naturals, so we model such values
as unreduced fractions of naturals (`JsNum`).  Value equality and order are
compared by cross-multiplication, which agrees with the IEEE-754 comparison
for the magnitudes reachable here (an exact integer ratio is represented
exactly; a non-integral ratio is never `===` an integer).  Division by zero
(JS `Infinity`) is unreachable in the properties proved below and is noted
where it would occur.
-/

namespace AsciiStudio

/-- A JavaScript number arising in the frame pipeline: an unreduced
fraction `num / den` of naturals.  `den` is positive for every value the
model constructs (a denominator is `1` or a positive frame count). -/
structure JsNum where
  num : Nat
  den : Nat
deriving DecidableEq, Repr

/-- The JS integer `n`. -/
def JsNum.ofNat (n : Nat) : JsNum := ⟨n, 1⟩

/-- The JS float division `a / b` (exact as a fraction). -/
def JsNum.divNat (a b : Nat) : JsNum := ⟨a, b⟩

/-- `k * a` for a natural `k`. -/
def JsNum.mulNat (k : Nat) (a : JsNum) : JsNum := ⟨k * a.num, a.den⟩

/-- `a + b`. -/
def JsNum.add (a b : JsNum) : JsNum :=
  ⟨a.num * b.den + b.num * a.den, a.den * b.den⟩

/-- Truncation of a non-negative JS number to an integer
(`ToIntegerOrInfinity` of a non-negative argument). -/
def JsNum.floorNat (a : JsNum) : Nat := a.num / a.den

/-- Value equality `a === n` against a JS integer `n`
(cross-multiplied; exact for the reachable magnitudes). -/
def JsNum.eqNat (a : JsNum) (n : Nat) : Prop := a.num = n * a.den

instance (a : JsNum) (n : Nat) : Decidable (a.eqNat n) :=
  inferInstanceAs (Decidable (_ = _))

/-- Value order `a ≤ n` against a JS integer `n`. -/
def JsNum.leNat (a : JsNum) (n : Nat) : Prop := a.num ≤ n * a.den

instance (a : JsNum) (n : Nat) : Decidable (a.leNat n) :=
  inferInstanceAs (Decidable (_ ≤ _))

/-- Value minimum of two JS numbers with positive denominators. -/
def JsNum.minVal (a b : JsNum) : JsNum :=
  if a.num * b.den ≤ b.num * a.den then a else b

/-- `Uint8Array.prototype.subarray(s, e)` on a byte sequence, for the
non-negative bounds produced by `renderFrame` and the measurement block:
the bounds are truncated to integers and clamped to the buffer length, and
a begin past the end yields the empty slice.  (JS additionally interprets
*negative* bounds relative to the end; no call site can produce one.) -/
def jsSubarray (buf : List Nat) (s e : JsNum) : List Nat :=
  let s' := min s.floorNat buf.length
  let e' := min e.floorNat buf.length
  (buf.drop s').take (e' - s')

/-- Transformation parameters, as read through `paramsRef.current`.
`contrast` is the fractional slider value (a multiple of one tenth). -/
structure Params where
  width : Nat
  brightness : Int
  contrast : JsNum
deriving DecidableEq, Repr

/-- `frameMetadata.current`. -/
structure FrameMeta where
  count : Nat
  size : JsNum
  rawW : Nat
  rawH : Nat
deriving DecidableEq, Repr

/-- The CSS transform of the rendered `<pre>` surface.  `initial` is the
empty style string, `cleared` is the literal `"none"` set during
measurement, `scaled s` is `translate(-50%, -50%) scale(s)`. -/
inductive TransformVal where
  | initial
  | cleared
  | scaled (s : JsNum)
deriving DecidableEq, Repr

/-- The rendered surface (`asciiRef.current`): its decoded text content
(modelled as the byte slice itself; `TextDecoder.decode` is injective on
the payloads here) and its CSS transform. -/
structure Surface where
  text : List Nat
  transform : TransformVal
deriving DecidableEq, Repr

/-- An outstanding or issued call to the external bulk/single conversion
operation `convert_gif_to_ascii`: its scope (`none` = all frames) and the
parameter snapshot it was issued with. -/
structure ConvCall where
  onlyFrame : Option Nat
  snap : Params
deriving DecidableEq, Repr

/-- An outstanding call to the external preview operation
`apply_adjustments_to_preview`, tagged with the arguments it was issued
with. -/
structure PreviewReq where
  brightness : Int
  contrast : JsNum
  frameIndex : Nat
deriving DecidableEq, Repr

/-- The whole component state.  Fields named after the refs and state
hooks of `App`; `issuedConv`, `pendingPreview`, `consoleLog` and
`nextTimerId` are the observation log of external calls, the outstanding
preview calls, the developer console, and a fresh-timer-id counter (the
value `window.setTimeout` returns). -/
structure AppState where
  gifLoaded : Bool
  adjustedPreviewUrl : String
  error : String
  params : Params
  asciiBuffer : Option (List Nat)
  frameMetadata : FrameMeta
  lastFrameTime : Int
  currentFrameIdx : Nat
  isInteractive : Bool
  debounceTimer : Option Nat
  nextTimerId : Nat
  isUpdating : Bool
  pendingUpdate : Bool
  inFlightConv : List ConvCall
  issuedConv : List ConvCall
  pendingPreview : List PreviewReq
  consoleLog : List String
  surface : Surface
  viewportW : Nat
  viewportH : Nat
deriving DecidableEq, Repr

/-- `calculateAndApplyScale` (App.tsx lines 63-82): recompute the affine
transform from the measured glyph grid and the viewport, unless nothing
has been measured yet.  (With `rawH = 0` and `rawW ≠ 0` JS would produce
an `Infinity` operand of `min`; no claim touches that corner.) -/
def calculateAndApplyScale (st : AppState) : AppState :=
  if st.frameMetadata.rawW = 0 then st
  else
    let scale := JsNum.minVal
      (JsNum.divNat (st.viewportW - 40) st.frameMetadata.rawW)
      (JsNum.divNat (st.viewportH - 40) st.frameMetadata.rawH)
    { st with surface := { st.surface with transform := .scaled scale } }

/-- `updatePreview` up to its suspension point (App.tsx lines 84-99):
guard on `gifLoaded`, then issue a preview call carrying the current
`paramsRef` brightness/contrast and the frame index.  The completion of
the call is a separate event. -/
def updatePreviewIssue (st : AppState) (frameIdx : Nat) : AppState :=
  if st.gifLoaded then
    { st with pendingPreview := st.pendingPreview ++
        [⟨st.params.brightness, st.params.contrast, frameIdx⟩] }
  else st

/-- The test `buffer.length === frameMetadata.current.size`
(App.tsx line 109). -/
def isSingleFrameBuffer (bufLen : Nat) (size : JsNum) : Prop :=
  (JsNum.ofNat bufLen).num * size.den = size.num * (JsNum.ofNat bufLen).den

instance (bufLen : Nat) (size : JsNum) :
    Decidable (isSingleFrameBuffer bufLen size) :=
  inferInstanceAs (Decidable (_ = _))

/-- The slice start `renderFrame` computes for a buffer of length
`bufLen` (App.tsx line 110): `0` for a single-frame-tagged buffer,
`safeIdx * size` otherwise. -/
def sliceStart (bufLen : Nat) (size : JsNum) (count : Nat) (idx : Nat) :
    JsNum :=
  if isSingleFrameBuffer bufLen size then JsNum.ofNat 0
  else JsNum.mulNat (idx % count) size

/-- The slice `renderFrame` extracts (App.tsx lines 108-113). -/
def sliceFor (buf : List Nat) (count : Nat) (size : JsNum) (idx : Nat) :
    List Nat :=
  let start := sliceStart buf.length size count idx
  jsSubarray buf start (start.add size)

/-- The body of `renderFrame` after the guard, for the buffer chosen by
`bufferOverride || asciiBuffer.current`. -/
def renderFrameWith (st : AppState) (idx : Nat) (buffer : List Nat) :
    AppState :=
  let safeIdx := idx % st.frameMetadata.count
  let slice := sliceFor buffer st.frameMetadata.count st.frameMetadata.size idx
  let st := { st with
    surface := { st.surface with text := slice },
    currentFrameIdx := safeIdx }
  let st := calculateAndApplyScale st
  updatePreviewIssue st safeIdx

/-- `renderFrame` (App.tsx lines 101-121).  The surface ref is mounted for
the whole component lifetime, so only the buffer and the frame count
guard. -/
def renderFrame (st : AppState) (idx : Nat) (ov : Option (List Nat)) :
    AppState :=
  match ov.orElse fun _ => st.asciiBuffer with
  | none => st
  | some buffer =>
    if st.frameMetadata.count = 0 then st
    else renderFrameWith st idx buffer

/-- The measurement sequence inside a successful conversion (App.tsx
lines 151-170): save the surface transform and text, swap in one decoded
frame with the transform reset, read the bounding box (`scrollWidth` and
`scrollHeight` are supplied by the DOM layout engine, here the event
environment), then restore.  `divisor` is
`onlyFrame !== undefined ? 1 : frameMetadata.current.count`. -/
def measureBlock (st : AppState) (data : List Nat) (divisor : Nat)
    (measW measH : Nat) : AppState :=
  let originalTransform := st.surface.transform
  let originalText := st.surface.text
  let sample := jsSubarray data (JsNum.ofNat 0)
    (JsNum.divNat data.length divisor)
  let st := { st with surface := { text := sample, transform := .cleared } }
  let st := { st with frameMetadata :=
    { st.frameMetadata with rawW := measW, rawH := measH } }
  { st with surface := { text := originalText, transform := originalTransform } }

/-- The success continuation of one `await invoke("convert_gif_to_ascii")`
inside the `convert` loop (App.tsx lines 147-181): skip empty payloads,
measure, then either install the single-frame override (set
`frameMetadata.size` to the payload length grid and render that frame from
the override buffer) or install the bulk buffer (replace `asciiBuffer`,
set `frameMetadata.size` to `data.length / count` — a float division with
no divisibility check — and re-render the current frame). -/
def applyConvSuccess (st : AppState) (c : ConvCall) (bytes : List Nat)
    (measW measH : Nat) : AppState :=
  if bytes.length = 0 then st
  else
    match c.onlyFrame with
    | some f =>
      let st := measureBlock st bytes 1 measW measH
      let st := { st with frameMetadata :=
        { st.frameMetadata with size := JsNum.ofNat bytes.length } }
      renderFrame st f (some bytes)
    | none =>
      let st := measureBlock st bytes st.frameMetadata.count measW measH
      let st := { st with
        asciiBuffer := some bytes,
        frameMetadata := { st.frameMetadata with
          size := JsNum.divNat bytes.length st.frameMetadata.count } }
      renderFrame st st.currentFrameIdx none

/-- `convert` up to its first suspension point (App.tsx lines 123-146):
guard on `gifLoaded`; if a call is already in flight, record that a replay
is owed and return; otherwise take the in-flight lock, clear the replay
flag, snapshot `paramsRef.current` and issue the external call. -/
def issueConvert (st : AppState) (onlyFrame : Option Nat) : AppState :=
  if st.gifLoaded then
    if st.isUpdating then { st with pendingUpdate := true }
    else
      let c : ConvCall := ⟨onlyFrame, st.params⟩
      { st with
        isUpdating := true,
        pendingUpdate := false,
        inFlightConv := st.inFlightConv ++ [c],
        issuedConv := st.issuedConv ++ [c] }
  else st

/-- The in-flight `convert` call resolving successfully: apply the
response, then the loop check (App.tsx line 182) — if a replay is owed,
clear the flag and issue a new call with the *current* `paramsRef`
snapshot and the original scope of the loop; otherwise release the lock
(`finally`, line 187). -/
def stepConvOk (st : AppState) (bytes : List Nat) (measW measH : Nat) :
    AppState :=
  match st.inFlightConv with
  | [] => st
  | c :: rest =>
    let st := applyConvSuccess { st with inFlightConv := rest } c bytes
      measW measH
    if st.pendingUpdate then
      let c' : ConvCall := ⟨c.onlyFrame, st.params⟩
      { st with
        pendingUpdate := false,
        inFlightConv := st.inFlightConv ++ [c'],
        issuedConv := st.issuedConv ++ [c'] }
    else { st with isUpdating := false }

/-- The in-flight `convert` call rejecting: the `catch` records the error
for display (App.tsx line 185) and the `finally` releases the lock; no
buffer, metadata or playback field is touched. -/
def stepConvErr (st : AppState) (msg : String) : AppState :=
  match st.inFlightConv with
  | [] => st
  | _ :: rest =>
    { st with inFlightConv := rest, error := msg, isUpdating := false }

/-- `handleParamChange` (App.tsx lines 247-256): raise the interactive
flag, run the updater (a React state setter — the `paramsRef` sync effect
at line 55 commits after the handler, hence after the synchronous
`convert` call below), issue a single-frame conversion for the currently
displayed frame, and cancel-and-rearm the trailing debounce timer. -/
def stepParamChange (st : AppState) (p : Params) : AppState :=
  let st := { st with isInteractive := true }
  let st := issueConvert st (some st.currentFrameIdx)
  let st := { st with
    debounceTimer := some st.nextTimerId,
    nextTimerId := st.nextTimerId + 1 }
  { st with params := p }

/-- The debounce timeout with id `tid` firing (App.tsx lines 252-255).  A
timer cancelled by `clearTimeout` never fires: only the currently armed id
does anything.  The trailing edge clears the interactive flag and issues a
full bulk conversion. -/
def stepTimerFire (st : AppState) (tid : Nat) : AppState :=
  if st.debounceTimer = some tid then
    let st := { st with debounceTimer := none, isInteractive := false }
    issueConvert st none
  else st

/-- One animation-frame callback of the autoplay clock (App.tsx lines
262-276), mounted while `gifLoaded` and `frameMetadata.count > 1`: outside
interactive mode, once more than 100ms have elapsed, stamp the time and
advance to the next frame; otherwise only reschedule. -/
def stepTick (st : AppState) (time : Int) : AppState :=
  if st.gifLoaded ∧ st.frameMetadata.count > 1 then
    if ¬ st.isInteractive ∧ time - st.lastFrameTime > 100 then
      let st := { st with lastFrameTime := time }
      renderFrame st (st.currentFrameIdx + 1) none
    else st
  else st

/-- The `i`-th outstanding preview call resolving (App.tsx line 93): the
response is applied unconditionally — the handler performs no comparison
of the request tag of the response against the current parameters. -/
def stepPreviewOk (st : AppState) (i : Nat) (url : String) : AppState :=
  if i < st.pendingPreview.length then
    { st with
      pendingPreview := st.pendingPreview.eraseIdx i,
      adjustedPreviewUrl := url }
  else st

/-- The `i`-th outstanding preview call rejecting (App.tsx lines 94-96):
`console.error` only; the user-visible error state is not written. -/
def stepPreviewFail (st : AppState) (i : Nat) (msg : String) : AppState :=
  if i < st.pendingPreview.length then
    { st with
      pendingPreview := st.pendingPreview.eraseIdx i,
      consoleLog := st.consoleLog ++ [msg] }
  else st

/-- The success path of `handleOpen` (App.tsx lines 210-215): record the
reported frame count and mark the source loaded. -/
def stepLoadGif (st : AppState) (count : Nat) : AppState :=
  { st with
    error := "",
    frameMetadata := { st.frameMetadata with count := count },
    gifLoaded := true }

/-- The events of the cooperative event loop. -/
inductive Ev where
  | setParams (p : Params)
  | callConvert (onlyFrame : Option Nat)
  | convOk (bytes : List Nat) (measW measH : Nat)
  | convErr (msg : String)
  | paramChange (p : Params)
  | timerFire (tid : Nat)
  | previewOk (i : Nat) (url : String)
  | previewFail (i : Nat) (msg : String)
  | tick (time : Int)
  | loadGif (count : Nat)
deriving DecidableEq, Repr

/-- The interleaving semantics: one event acting on the state. -/
def step (st : AppState) : Ev → AppState
  | .setParams p => { st with params := p }
  | .callConvert f => issueConvert st f
  | .convOk b w h => stepConvOk st b w h
  | .convErr m => stepConvErr st m
  | .paramChange p => stepParamChange st p
  | .timerFire t => stepTimerFire st t
  | .previewOk i u => stepPreviewOk st i u
  | .previewFail i m => stepPreviewFail st i m
  | .tick t => stepTick st t
  | .loadGif c => stepLoadGif st c

/-- Run a sequence of events. -/
def run (st : AppState) (evs : List Ev) : AppState := evs.foldl step st

/-- The initial component state (App.tsx lines 28-53; the viewport size is
an arbitrary fixed geometry, unobserved by every property below). -/
def init : AppState where
  gifLoaded := false
  adjustedPreviewUrl := ""
  error := ""
  params := ⟨100, 0, JsNum.divNat 10 10⟩
  asciiBuffer := none
  frameMetadata := ⟨0, JsNum.ofNat 0, 0, 0⟩
  lastFrameTime := 0
  currentFrameIdx := 0
  isInteractive := false
  debounceTimer := none
  nextTimerId := 0
  isUpdating := false
  pendingUpdate := false
  inFlightConv := []
  issuedConv := []
  pendingPreview := []
  consoleLog := []
  surface := ⟨[], .initial⟩
  viewportW := 800
  viewportH := 600

/-- The coordinator-facing fields of the state: everything the request
coordinator and the debounce machinery read or write, bundled so that the
response-application code (which only touches the buffer, metadata,
surface and preview channel) can be proved not to interfere. -/
def coordView (st : AppState) :
    Bool × Bool × List ConvCall × List ConvCall × Params × Bool × Bool ×
    Option Nat × Nat × String :=
  (st.isUpdating, st.pendingUpdate, st.inFlightConv, st.issuedConv,
   st.params, st.gifLoaded, st.isInteractive, st.debounceTimer,
   st.nextTimerId, st.error)

/-- Single-flight well-formedness of the bulk-conversion channel: at most
one external call outstanding, and none while the lock is free. -/
def coordWF (st : AppState) : Prop :=
  st.inFlightConv.length ≤ 1 ∧ (st.isUpdating = false → st.inFlightConv = [])

/-- The frame-buffer-facing fields of the state: everything the render
path may not change when it merely draws a frame. -/
def bufView (st : AppState) :
    Option (List Nat) × Nat × JsNum × Int :=
  (st.asciiBuffer, st.frameMetadata.count, st.frameMetadata.size,
   st.lastFrameTime)

/-- The default parameter snapshot (width 100, brightness 0, contrast 1.0
entered as the slider fraction 10/10). -/
def pDefault : Params := ⟨100, 0, JsNum.divNat 10 10⟩

/-- A parameter snapshot after a width edit. -/
def pWide : Params := ⟨120, 0, JsNum.divNat 10 10⟩

/-- A parameter snapshot with brightness 10. -/
def pB10 : Params := ⟨100, 10, JsNum.divNat 10 10⟩

/-- A parameter snapshot with brightness 20. -/
def pB20 : Params := ⟨100, 20, JsNum.divNat 10 10⟩

/-- A bulk call with the default snapshot. -/
def cBulk : ConvCall := ⟨none, pDefault⟩

/-- A state with a bulk conversion in flight: a 2-frame source is loaded
and one bulk call holds the single-flight lock. -/
def stBusy : AppState := { init with
  gifLoaded := true
  isUpdating := true
  frameMetadata := ⟨2, JsNum.ofNat 0, 0, 0⟩
  inFlightConv := [cBulk]
  issuedConv := [cBulk] }

/-- An idle loaded state: a 3-frame source converted once (frame size 4,
buffer of 12 bytes), no call in flight, autoplay mode. -/
def stIdle : AppState := { init with
  gifLoaded := true
  asciiBuffer := some (List.range 12)
  frameMetadata := ⟨3, JsNum.ofNat 4, 7, 9⟩
  currentFrameIdx := 1
  nextTimerId := 5 }

/-- `stIdle` during an interactive drag. -/
def stDrag : AppState := { stIdle with isInteractive := true }

/-- Event trace for the layout question of C2: load a source reporting 3
frames, issue the initial bulk conversion, and let the service answer
with 10 bytes — a length not divisible by the frame count. -/
def evsC2 : List Ev :=
  [.loadGif 3, .callConvert none, .convOk (List.replicate 10 65) 4 5]

/-- Event trace for C5: a 5-frame source is bulk-converted to 50 bytes
(frame size 10), then an interactive edit triggers a single-frame
conversion whose 30-byte response sets `frameMetadata.size := 30` while
the 50-byte bulk buffer stays installed, and the debounce trailing edge
clears the interactive flag (its bulk call is still in flight). -/
def evsC5 : List Ev :=
  [.loadGif 5, .callConvert none, .convOk (List.replicate 50 65) 4 5,
   .paramChange pWide, .convOk (List.replicate 30 66) 4 5, .timerFire 0]

/-- Event trace for C3, up to the point where two preview requests with
different parameter snapshots are outstanding: initial conversion at
brightness 0, then interactive edits to brightness 10 and 20, each
completed single-frame conversion issuing a preview request tagged with
the then-current snapshot. -/
def evsC3 : List Ev :=
  [.loadGif 1, .callConvert none, .convOk [65] 4 5,
   .paramChange pB10, .convOk [66] 4 5,
   .paramChange pB20, .convOk [67] 4 5]

theorem coordView_calculateAndApplyScale (st : AppState) :
    coordView (calculateAndApplyScale st) = coordView st := by
  unfold calculateAndApplyScale
  split <;> rfl

theorem coordView_updatePreviewIssue (st : AppState) (i : Nat) :
    coordView (updatePreviewIssue st i) = coordView st := by
  unfold updatePreviewIssue
  split <;> rfl

theorem coordView_renderFrameWith (st : AppState) (idx : Nat)
    (buffer : List Nat) :
    coordView (renderFrameWith st idx buffer) = coordView st := by
  simp only [renderFrameWith]
  rw [coordView_updatePreviewIssue, coordView_calculateAndApplyScale]
  rfl

theorem coordView_renderFrame (st : AppState) (idx : Nat)
    (ov : Option (List Nat)) :
    coordView (renderFrame st idx ov) = coordView st := by
  unfold renderFrame
  rcases hov : ov.orElse fun _ => st.asciiBuffer with _ | buffer
  · simp [hov]
  · simp only [hov]
    split
    · rfl
    · exact coordView_renderFrameWith st idx buffer

theorem coordView_measureBlock (st : AppState) (data : List Nat)
    (divisor measW measH : Nat) :
    coordView (measureBlock st data divisor measW measH) = coordView st := by
  rfl

theorem coordView_applyConvSuccess (st : AppState) (c : ConvCall)
    (bytes : List Nat) (measW measH : Nat) :
    coordView (applyConvSuccess st c bytes measW measH) = coordView st := by
  unfold applyConvSuccess
  split
  · rfl
  · rcases c.onlyFrame with _ | f
    · simp only []
      rw [coordView_renderFrame]
      exact coordView_measureBlock st bytes st.frameMetadata.count measW measH
    · simp only []
      rw [coordView_renderFrame]
      exact coordView_measureBlock st bytes 1 measW measH

theorem coordView_fields {s t : AppState} (hcv : coordView s = coordView t) :
    s.isUpdating = t.isUpdating ∧ s.pendingUpdate = t.pendingUpdate ∧
    s.inFlightConv = t.inFlightConv ∧ s.issuedConv = t.issuedConv ∧
    s.params = t.params ∧ s.gifLoaded = t.gifLoaded ∧
    s.isInteractive = t.isInteractive ∧ s.debounceTimer = t.debounceTimer ∧
    s.nextTimerId = t.nextTimerId ∧ s.error = t.error := by
  simpa [coordView, Prod.ext_iff] using hcv

theorem coordWF_of_coordView {s t : AppState}
    (hcv : coordView s = coordView t) (h : coordWF t) : coordWF s := by
  obtain ⟨h1, h2, h3, -⟩ := coordView_fields hcv
  rw [coordWF, h1, h3]
  exact h

theorem coordWF_issueConvert (st : AppState) (f : Option Nat)
    (h : coordWF st) : coordWF (issueConvert st f) := by
  obtain ⟨h1, h2⟩ := h
  unfold issueConvert
  split
  · split
    · exact ⟨h1, by simp_all⟩
    · rename_i hu
      rw [h2 (by simpa using hu)]
      exact ⟨by simp, by simp⟩
  · exact ⟨h1, h2⟩

theorem stepConvOk_nil (st : AppState) (b : List Nat) (mw mh : Nat)
    (hfl : st.inFlightConv = []) : stepConvOk st b mw mh = st := by
  unfold stepConvOk
  rw [hfl]

theorem stepConvOk_eq (st : AppState) (c : ConvCall) (b : List Nat)
    (mw mh : Nat) (hfl : st.inFlightConv = c :: []) :
    stepConvOk st b mw mh =
      (if (applyConvSuccess { st with inFlightConv := [] } c b mw mh).pendingUpdate = true then
        { applyConvSuccess { st with inFlightConv := [] } c b mw mh with
          pendingUpdate := false,
          inFlightConv :=
            (applyConvSuccess { st with inFlightConv := [] } c b mw mh).inFlightConv ++
              [⟨c.onlyFrame, (applyConvSuccess { st with inFlightConv := [] } c b mw mh).params⟩],
          issuedConv :=
            (applyConvSuccess { st with inFlightConv := [] } c b mw mh).issuedConv ++
              [⟨c.onlyFrame, (applyConvSuccess { st with inFlightConv := [] } c b mw mh).params⟩] }
      else
        { applyConvSuccess { st with inFlightConv := [] } c b mw mh with
          isUpdating := false }) := by
  unfold stepConvOk
  rw [hfl]

theorem stepConvErr_eq (st : AppState) (msg : String) (c : ConvCall)
    (rest : List ConvCall) (hfl : st.inFlightConv = c :: rest) :
    stepConvErr st msg =
      { st with inFlightConv := rest, error := msg, isUpdating := false } := by
  unfold stepConvErr
  rw [hfl]

theorem stepConvErr_nil (st : AppState) (msg : String)
    (hfl : st.inFlightConv = []) : stepConvErr st msg = st := by
  unfold stepConvErr
  rw [hfl]

theorem coordWF_stepConvOk (st : AppState) (b : List Nat) (mw mh : Nat)
    (h : coordWF st) : coordWF (stepConvOk st b mw mh) := by
  obtain ⟨h1, h2⟩ := h
  rcases hfl : st.inFlightConv with _ | ⟨c, rest⟩
  · rw [stepConvOk_nil st b mw mh hfl]
    exact ⟨h1, h2⟩
  · have hrest : rest = [] := by
      rw [hfl] at h1
      simpa [Nat.succ_le_succ_iff, List.length_eq_zero] using h1
    subst hrest
    rw [stepConvOk_eq st c b mw mh hfl]
    have hcv := coordView_applyConvSuccess { st with inFlightConv := [] } c b mw mh
    obtain ⟨g1, g2, g3, -⟩ := coordView_fields hcv
    split
    · refine ⟨by simp [coordWF, g3], ?_⟩
      intro hu
      simp only [g1] at hu
      have hnil : st.inFlightConv = [] := h2 hu
      rw [hfl] at hnil
      cases hnil
    · exact ⟨by simp [g3], fun _ => by simp [g3]⟩

theorem coordWF_stepConvErr (st : AppState) (msg : String)
    (h : coordWF st) : coordWF (stepConvErr st msg) := by
  obtain ⟨h1, h2⟩ := h
  rcases hfl : st.inFlightConv with _ | ⟨c, rest⟩
  · rw [stepConvErr_nil st msg hfl]
    exact ⟨h1, h2⟩
  · have hrest : rest = [] := by
      rw [hfl] at h1
      simpa [Nat.succ_le_succ_iff, List.length_eq_zero] using h1
    subst hrest
    rw [stepConvErr_eq st msg c [] hfl]
    exact ⟨by simp, fun _ => rfl⟩

theorem coordWF_step (st : AppState) (e : Ev) (h : coordWF st) :
    coordWF (step st e) := by
  cases e with
  | setParams p => exact h
  | callConvert f => exact coordWF_issueConvert st f h
  | convOk b mw mh => exact coordWF_stepConvOk st b mw mh h
  | convErr m => exact coordWF_stepConvErr st m h
  | paramChange p =>
    show coordWF (stepParamChange st p)
    unfold stepParamChange
    exact coordWF_issueConvert { st with isInteractive := true } _ h
  | timerFire t =>
    show coordWF (stepTimerFire st t)
    unfold stepTimerFire
    split
    · exact coordWF_issueConvert _ _ h
    · exact h
  | previewOk i u =>
    show coordWF (stepPreviewOk st i u)
    unfold stepPreviewOk
    split <;> exact h
  | previewFail i m =>
    show coordWF (stepPreviewFail st i m)
    unfold stepPreviewFail
    split <;> exact h
  | tick t =>
    show coordWF (stepTick st t)
    unfold stepTick
    split
    · split
      · exact coordWF_of_coordView
          (coordView_renderFrame { st with lastFrameTime := t } _ none) h
      · exact h
    · exact h
  | loadGif c => exact h

theorem coordWF_run (st : AppState) (evs : List Ev) (h : coordWF st) :
    coordWF (run st evs) := by
  induction evs generalizing st with
  | nil => exact h
  | cons e evs ih => exact ih _ (coordWF_step _ _ h)

theorem coordWF_init : coordWF init := by
  exact ⟨by decide, fun _ => rfl⟩

theorem stepParamChange_inFlight (st : AppState) (p : Params)
    (hg : st.gifLoaded = true) (hu : st.isUpdating = true) :
    stepParamChange st p = { st with
      isInteractive := true, pendingUpdate := true,
      debounceTimer := some st.nextTimerId,
      nextTimerId := st.nextTimerId + 1, params := p } := by
  unfold stepParamChange issueConvert
  simp [hg, hu]

theorem run_paramChange_burst (ps : List Params) (st : AppState)
    (hg : st.gifLoaded = true) (hu : st.isUpdating = true) :
    (run st (ps.map Ev.paramChange)).gifLoaded = true ∧
    (run st (ps.map Ev.paramChange)).isUpdating = true ∧
    (run st (ps.map Ev.paramChange)).inFlightConv = st.inFlightConv ∧
    (run st (ps.map Ev.paramChange)).issuedConv = st.issuedConv ∧
    (run st (ps.map Ev.paramChange)).params = ps.getLastD st.params ∧
    (run st (ps.map Ev.paramChange)).pendingUpdate =
      (if ps = [] then st.pendingUpdate else true) := by
  induction ps generalizing st with
  | nil => simp [run, hg, hu]
  | cons p ps ih =>
    have hstep : step st (.paramChange p) = stepParamChange st p := rfl
    rw [List.map_cons, run, List.foldl_cons, ← run, hstep,
      stepParamChange_inFlight st p hg hu]
    obtain ⟨g1, g2, g3, g4, g5, g6⟩ := ih { st with
      isInteractive := true, pendingUpdate := true,
      debounceTimer := some st.nextTimerId,
      nextTimerId := st.nextTimerId + 1, params := p } hg hu
    refine ⟨g1, g2, g3, g4, ?_, ?_⟩
    · rw [g5, List.getLastD_cons]
    · rw [g6]
      simp

theorem stepConvOk_replay (st : AppState) (c : ConvCall) (b : List Nat)
    (mw mh : Nat) (hfl : st.inFlightConv = [c])
    (hp : st.pendingUpdate = true) :
    (stepConvOk st b mw mh).inFlightConv = [⟨c.onlyFrame, st.params⟩] ∧
    (stepConvOk st b mw mh).issuedConv =
      st.issuedConv ++ [⟨c.onlyFrame, st.params⟩] ∧
    (stepConvOk st b mw mh).pendingUpdate = false ∧
    (stepConvOk st b mw mh).isUpdating = st.isUpdating ∧
    (stepConvOk st b mw mh).params = st.params ∧
    (stepConvOk st b mw mh).gifLoaded = st.gifLoaded ∧
    (stepConvOk st b mw mh).debounceTimer = st.debounceTimer ∧
    (stepConvOk st b mw mh).isInteractive = st.isInteractive := by
  rw [stepConvOk_eq st c b mw mh hfl]
  have hcv := coordView_applyConvSuccess { st with inFlightConv := [] } c b mw mh
  obtain ⟨g1, g2, g3, g4, g5, g6, g7, g8, -⟩ := coordView_fields hcv
  split
  · exact ⟨by simp [g3, g5], by simp [g4, g5], rfl, g1, g5, g6, g8, g7⟩
  · rename_i hcond
    rw [g2, hp] at hcond
    cases hcond rfl

theorem stepConvOk_done (st : AppState) (c : ConvCall) (b : List Nat)
    (mw mh : Nat) (hfl : st.inFlightConv = [c])
    (hp : st.pendingUpdate = false) :
    (stepConvOk st b mw mh).inFlightConv = [] ∧
    (stepConvOk st b mw mh).issuedConv = st.issuedConv ∧
    (stepConvOk st b mw mh).isUpdating = false ∧
    (stepConvOk st b mw mh).params = st.params ∧
    (stepConvOk st b mw mh).gifLoaded = st.gifLoaded ∧
    (stepConvOk st b mw mh).debounceTimer = st.debounceTimer ∧
    (stepConvOk st b mw mh).isInteractive = st.isInteractive := by
  rw [stepConvOk_eq st c b mw mh hfl]
  have hcv := coordView_applyConvSuccess { st with inFlightConv := [] } c b mw mh
  obtain ⟨g1, g2, g3, g4, g5, g6, g7, g8, -⟩ := coordView_fields hcv
  split
  · rename_i hcond
    rw [g2, hp] at hcond
    cases hcond
  · exact ⟨by simp [g3], g4, rfl, g5, g6, g8, g7⟩

theorem bufView_calculateAndApplyScale (st : AppState) :
    bufView (calculateAndApplyScale st) = bufView st := by
  unfold calculateAndApplyScale
  split <;> rfl

theorem bufView_updatePreviewIssue (st : AppState) (i : Nat) :
    bufView (updatePreviewIssue st i) = bufView st := by
  unfold updatePreviewIssue
  split <;> rfl

theorem bufView_renderFrame (st : AppState) (idx : Nat)
    (ov : Option (List Nat)) :
    bufView (renderFrame st idx ov) = bufView st := by
  unfold renderFrame
  rcases hov : ov.orElse fun _ => st.asciiBuffer with _ | buffer
  · simp [hov]
  · simp only [hov]
    split
    · rfl
    · simp only [renderFrameWith]
      rw [bufView_updatePreviewIssue, bufView_calculateAndApplyScale]
      rfl

theorem bufView_fields {s t : AppState} (hbv : bufView s = bufView t) :
    s.asciiBuffer = t.asciiBuffer ∧
    s.frameMetadata.count = t.frameMetadata.count ∧
    s.frameMetadata.size = t.frameMetadata.size ∧
    s.lastFrameTime = t.lastFrameTime := by
  simpa [bufView, Prod.ext_iff] using hbv

theorem applyConvSuccess_bulk (st : AppState) (c : ConvCall)
    (bytes : List Nat) (mw mh : Nat) (hbulk : c.onlyFrame = none)
    (hb : bytes.length ≠ 0) :
    (applyConvSuccess st c bytes mw mh).asciiBuffer = some bytes ∧
    (applyConvSuccess st c bytes mw mh).frameMetadata.size =
      JsNum.divNat bytes.length st.frameMetadata.count ∧
    (applyConvSuccess st c bytes mw mh).frameMetadata.count =
      st.frameMetadata.count := by
  unfold applyConvSuccess
  rw [if_neg hb, hbulk]
  obtain ⟨k1, k2, k3, -⟩ := bufView_fields (bufView_renderFrame
    { measureBlock st bytes st.frameMetadata.count mw mh with
      asciiBuffer := some bytes,
      frameMetadata := { (measureBlock st bytes st.frameMetadata.count mw mh).frameMetadata with
        size := JsNum.divNat bytes.length
          (measureBlock st bytes st.frameMetadata.count mw mh).frameMetadata.count } }
    st.currentFrameIdx none)
  exact ⟨k1, k3, k2⟩

/-- C1: the bulk-conversion channel is single-flight with trailing-replay
coalescing.  (i) Along every event sequence from the initial state, at
most one conversion call is outstanding.  (ii) A `convert` invocation
arriving while one is in flight only sets the replay flag and returns.
(iii) From a state with one call in flight, a burst of parameter edits
issues no call; when the in-flight call then completes, exactly one
replay is issued, carrying the latest parameter snapshot (the last edit
of the burst, not the snapshot of the original call); and after the
replay completes with no further replay pending, the loop terminates
with the lock released and no further call issued. -/
theorem C1_single_flight_replay_coalescing
    (st : AppState) (c : ConvCall) (ps : List Params)
    (b1 b2 : List Nat) (w1 x1 w2 x2 : Nat)
    (hg : st.gifLoaded = true) (hu : st.isUpdating = true)
    (hfl : st.inFlightConv = [c]) (hne : ps ≠ []) :
    (∀ evs : List Ev, (run init evs).inFlightConv.length ≤ 1) ∧
    (∀ f, step st (.callConvert f) = { st with pendingUpdate := true }) ∧
    (run st (ps.map Ev.paramChange)).issuedConv = st.issuedConv ∧
    (run st (ps.map Ev.paramChange)).inFlightConv = [c] ∧
    (step (run st (ps.map Ev.paramChange)) (.convOk b1 w1 x1)).issuedConv =
      st.issuedConv ++ [⟨c.onlyFrame, ps.getLastD st.params⟩] ∧
    (step (run st (ps.map Ev.paramChange)) (.convOk b1 w1 x1)).inFlightConv =
      [⟨c.onlyFrame, ps.getLastD st.params⟩] ∧
    (step (run st (ps.map Ev.paramChange)) (.convOk b1 w1 x1)).pendingUpdate =
      false ∧
    (step (step (run st (ps.map Ev.paramChange)) (.convOk b1 w1 x1))
      (.convOk b2 w2 x2)).isUpdating = false ∧
    (step (step (run st (ps.map Ev.paramChange)) (.convOk b1 w1 x1))
      (.convOk b2 w2 x2)).issuedConv =
      st.issuedConv ++ [⟨c.onlyFrame, ps.getLastD st.params⟩] ∧
    (step (step (run st (ps.map Ev.paramChange)) (.convOk b1 w1 x1))
      (.convOk b2 w2 x2)).inFlightConv = [] := by
  obtain ⟨g1, g2, g3, g4, g5, g6⟩ := run_paramChange_burst ps st hg hu
  have hps : (if ps = [] then st.pendingUpdate else true) = true := by
    simp [hne]
  rw [hps] at g6
  have hfl1 : (run st (ps.map Ev.paramChange)).inFlightConv = [c] := by
    rw [g3, hfl]
  have hstep1 : step (run st (ps.map Ev.paramChange)) (.convOk b1 w1 x1) =
      stepConvOk (run st (ps.map Ev.paramChange)) b1 w1 x1 := rfl
  obtain ⟨r1, r2, r3, r4, r5, r6, r7, r8⟩ :=
    stepConvOk_replay (run st (ps.map Ev.paramChange)) c b1 w1 x1 hfl1 g6
  rw [g5] at r1 r2
  rw [g4] at r2
  have hstep2 : step (step (run st (ps.map Ev.paramChange)) (.convOk b1 w1 x1))
      (.convOk b2 w2 x2) =
      stepConvOk (step (run st (ps.map Ev.paramChange)) (.convOk b1 w1 x1))
        b2 w2 x2 := rfl
  obtain ⟨d1, d2, d3, d4, d5, d6, d7⟩ :=
    stepConvOk_done (step (run st (ps.map Ev.paramChange)) (.convOk b1 w1 x1))
      ⟨c.onlyFrame, ps.getLastD st.params⟩ b2 w2 x2 (hstep1 ▸ r1) (hstep1 ▸ r3)
  refine ⟨?_, ?_, g4, hfl1, hstep1 ▸ r2, hstep1 ▸ r1, hstep1 ▸ r3,
    hstep2 ▸ d3, ?_, hstep2 ▸ d1⟩
  · intro evs
    exact (coordWF_run init evs coordWF_init).1
  · intro f
    show issueConvert st f = _
    unfold issueConvert
    simp [hg, hu]
  · rw [hstep2, d2, hstep1, r2]

/-- Witness for C1 at a concrete busy state and a two-edit burst. -/
theorem C1_single_flight_replay_coalescing_witness :
    stBusy.gifLoaded = true ∧ stBusy.isUpdating = true ∧
    stBusy.inFlightConv = [cBulk] ∧ ([pB10, pB20] : List Params) ≠ [] ∧
    (step (run stBusy ([pB10, pB20].map Ev.paramChange))
      (.convOk [65] 1 2)).issuedConv = stBusy.issuedConv ++ [⟨none, pB20⟩] :=
  ⟨rfl, rfl, rfl, by decide,
    (C1_single_flight_replay_coalescing stBusy cBulk [pB10, pB20]
      [65] [66] 1 2 3 4 rfl rfl rfl (by decide)).2.2.2.2.1⟩

/-- C2 counterexample: installing a 10-byte bulk payload into a 3-frame
source does not fail — no error is recorded, the lock is released
normally, the buffer is installed, and `frameMetadata.size` is set to the
fractional value 10/3 (whose numerator is not divisible by its
denominator).  The code has no `InvalidLayout` (or any other
divisibility) check at all. -/
theorem C2_counterexample_no_invalid_layout :
    (run init evsC2).error = "" ∧
    (run init evsC2).isUpdating = false ∧
    (run init evsC2).asciiBuffer = some (List.replicate 10 65) ∧
    (run init evsC2).frameMetadata.size = JsNum.divNat 10 3 ∧
    (run init evsC2).frameMetadata.size.num %
      (run init evsC2).frameMetadata.size.den ≠ 0 := by
  decide

/-- C2 amended: the bulk install rejects nothing.  For every non-empty
byte payload completing a bulk call it unconditionally sets
`frameSize = bytes.length / frameCount` (JS float division, fractional
when the length is not evenly divisible) and leaves the error state and
the rest of the coordinator untouched; the payload is installed as the
new buffer. -/
theorem C2_install_sets_fractional_size_never_rejects
    (st : AppState) (c : ConvCall) (bytes : List Nat) (mw mh : Nat)
    (hfl : st.inFlightConv = [c]) (hbulk : c.onlyFrame = none)
    (hb : bytes.length ≠ 0) :
    (stepConvOk st bytes mw mh).frameMetadata.size =
      JsNum.divNat bytes.length st.frameMetadata.count ∧
    (stepConvOk st bytes mw mh).error = st.error ∧
    (stepConvOk st bytes mw mh).asciiBuffer = some bytes := by
  rw [stepConvOk_eq st c bytes mw mh hfl]
  obtain ⟨a1, a2, a3⟩ := applyConvSuccess_bulk { st with inFlightConv := [] }
    c bytes mw mh hbulk hb
  obtain ⟨-, -, -, -, -, -, -, -, -, g10⟩ := coordView_fields
    (coordView_applyConvSuccess { st with inFlightConv := [] } c bytes mw mh)
  split
  · exact ⟨a2, g10, a1⟩
  · exact ⟨a2, g10, a1⟩

/-- Witness for the amended C2 statement at the busy state: a 4-byte bulk
payload on a 2-frame source yields frame size 4/2 with no error. -/
theorem C2_install_sets_fractional_size_never_rejects_witness :
    stBusy.inFlightConv = [cBulk] ∧ cBulk.onlyFrame = none ∧
    ([65, 66, 67, 68] : List Nat).length ≠ 0 ∧
    (stepConvOk stBusy [65, 66, 67, 68] 3 4).frameMetadata.size =
      JsNum.divNat 4 stBusy.frameMetadata.count :=
  ⟨rfl, rfl, by decide,
    (C2_install_sets_fractional_size_never_rejects stBusy cBulk
      [65, 66, 67, 68] 3 4 rfl rfl (by decide)).1⟩

/-- C3 counterexample: no snapshot-tag guard exists on the preview
channel.  After edits to brightness 10 and then 20, three preview
requests are outstanding, tagged with brightness 0, 10 and 20.  The
response of the request tagged 20 is applied first; the response of the
*older* request tagged 10 then arrives and is applied as well,
overwriting the newer preview although its tag does not match the
current parameter snapshot (brightness 20). -/
theorem C3_counterexample_stale_preview_applied :
    (run init evsC3).pendingPreview =
      [⟨0, JsNum.divNat 10 10, 0⟩, ⟨10, JsNum.divNat 10 10, 0⟩,
       ⟨20, JsNum.divNat 10 10, 0⟩] ∧
    (run (run init evsC3) [.previewOk 2 "U20"]).adjustedPreviewUrl = "U20" ∧
    (run (run init evsC3)
      [.previewOk 2 "U20", .previewOk 1 "U10"]).adjustedPreviewUrl = "U10" ∧
    (run (run init evsC3)
      [.previewOk 2 "U20", .previewOk 1 "U10"]).params.brightness = 20 := by
  decide

/-- C3 amended: the preview channel is last-write-wins.  Every arriving
preview response is stored as the displayed preview unconditionally —
the handler never compares the request-time parameter tag of a response
with the current snapshot, so a stale response arriving after a newer
one was applied does overwrite it. -/
theorem C3_preview_last_write_wins (st : AppState) (i : Nat) (url : String)
    (hi : i < st.pendingPreview.length) :
    (stepPreviewOk st i url).adjustedPreviewUrl = url ∧
    (stepPreviewOk st i url).pendingPreview = st.pendingPreview.eraseIdx i ∧
    (stepPreviewOk st i url).params = st.params ∧
    (stepPreviewOk st i url).asciiBuffer = st.asciiBuffer := by
  unfold stepPreviewOk
  rw [if_pos hi]
  exact ⟨rfl, rfl, rfl, rfl⟩

/-- Witness for the amended C3 statement: applying the stale-tagged
response stores its payload. -/
theorem C3_preview_last_write_wins_witness :
    1 < (run init evsC3).pendingPreview.length ∧
    (stepPreviewOk (run init evsC3) 1 "stale").adjustedPreviewUrl =
      "stale" :=
  ⟨by decide,
    (C3_preview_last_write_wins (run init evsC3) 1 "stale" (by decide)).1⟩

/-- C4: for a multi-frame buffer whose layout matches its metadata
(`bytes.length = frameCount * frameSize`, `frameCount > 0`,
`frameSize > 0`), the slice rendered for frame `i` is exactly
`bytes[(i mod frameCount) * frameSize : (i mod frameCount) * frameSize +
frameSize)` — so indices congruent modulo `frameCount` yield the same
bytes — and for a single-frame-tagged buffer (`size = bytes.length`) the
whole buffer is returned regardless of the index. -/
theorem C4_sliceFor_modular_window (buf : List Nat) (count fs i : Nat)
    (hc : 0 < count) (hf : 0 < fs) (hlen : buf.length = count * fs) :
    sliceFor buf count (JsNum.ofNat fs) i =
      (buf.drop ((i % count) * fs)).take fs ∧
    (∀ (buf2 : List Nat) (j : Nat),
      sliceFor buf2 count (JsNum.ofNat buf2.length) j = buf2) := by
  constructor
  · by_cases hone : count = 1
    · subst hone
      rw [one_mul] at hlen
      unfold sliceFor sliceStart
      rw [if_pos (by unfold isSingleFrameBuffer JsNum.ofNat; simp [hlen])]
      unfold jsSubarray JsNum.ofNat JsNum.add JsNum.floorNat
      simp [hlen, Nat.mod_one]
    · have hne : ¬ isSingleFrameBuffer buf.length (JsNum.ofNat fs) := by
        unfold isSingleFrameBuffer JsNum.ofNat
        simp only [mul_one]
        rw [hlen]
        intro hcontra
        exact hone (Nat.eq_of_mul_eq_mul_right hf (by simpa using hcontra))
      unfold sliceFor sliceStart
      rw [if_neg hne]
      unfold jsSubarray JsNum.mulNat JsNum.ofNat JsNum.add JsNum.floorNat
      simp only [mul_one, one_mul, Nat.div_one]
      have hmod : i % count < count := Nat.mod_lt i hc
      have h2 : i % count * fs + fs ≤ buf.length := by
        rw [hlen]
        calc i % count * fs + fs = (i % count + 1) * fs := by ring
          _ ≤ count * fs := Nat.mul_le_mul_right fs hmod
      have h1 : i % count * fs ≤ buf.length :=
        le_trans (Nat.le_add_right _ _) h2
      rw [Nat.min_eq_left h1, Nat.min_eq_left h2]
      congr 1
      omega
  · intro buf2 j
    unfold sliceFor sliceStart
    rw [if_pos (by unfold isSingleFrameBuffer JsNum.ofNat; rfl)]
    unfold jsSubarray JsNum.ofNat JsNum.add JsNum.floorNat
    simp

/-- Witness for C4 on a 5-frame buffer of frame size 10: frame 7 is the
window of frame 2, and a single-frame-tagged buffer is returned whole. -/
theorem C4_sliceFor_modular_window_witness :
    0 < 5 ∧ 0 < 10 ∧ (List.range 50).length = 5 * 10 ∧
    sliceFor (List.range 50) 5 (JsNum.ofNat 10) 7 =
      ((List.range 50).drop ((7 % 5) * 10)).take 10 ∧
    sliceFor (List.range 50) 5 (JsNum.ofNat 10) 7 =
      sliceFor (List.range 50) 5 (JsNum.ofNat 10) 2 :=
  ⟨by decide, by decide, by decide,
    (C4_sliceFor_modular_window (List.range 50) 5 10 7 (by decide)
      (by decide) (by decide)).1,
    by decide⟩

/-- C5 counterexample: the reachable mixed state of `evsC5` — the
5-frame, 50-byte bulk buffer still installed while a single-frame
conversion has set `frameMetadata.size` to 30 and the interactive flag
has been cleared — computes, for frame index 1, a slice whose end
`start + frameSize` exceeds the length of the buffer being sliced
(30 + 30 > 50): the claimed bound `start + frameSize ≤ bytes.length`
fails on a reachable state. -/
theorem C5_counterexample_mixed_state_slice_exceeds_buffer :
    (run init evsC5).asciiBuffer = some (List.replicate 50 65) ∧
    (run init evsC5).frameMetadata.count = 5 ∧
    (run init evsC5).frameMetadata.size = JsNum.ofNat 30 ∧
    (run init evsC5).isInteractive = false ∧
    ¬ ((sliceStart (List.replicate 50 65 : List Nat).length
          (run init evsC5).frameMetadata.size
          (run init evsC5).frameMetadata.count 1).add
        (run init evsC5).frameMetadata.size).leNat
      (List.replicate 50 65 : List Nat).length := by
  decide

/-- C5 amended: the in-bounds guarantee holds exactly for the consistent
layouts of the data model — a bulk buffer with
`bytes.length = frameCount * frameSize` or a single-frame buffer with
`bytes.length = frameSize` (equations stated cross-multiplied for the
fractional size) — and for arbitrary bounds `subarray` clamps the slice
inside the buffer, so even the reachable mixed state of the
counterexample reads no byte outside the buffer; it only renders a
truncated slice. -/
theorem C5_slice_in_bounds_for_consistent_layout (bufLen count idx : Nat)
    (size : JsNum) (hc : 0 < count)
    (hlen : bufLen * size.den = count * size.num ∨
      bufLen * size.den = size.num) :
    ((sliceStart bufLen size count idx).add size).leNat bufLen ∧
    (∀ (buf : List Nat) (s e : JsNum), ∃ pre post,
      buf = pre ++ jsSubarray buf s e ++ post) := by
  constructor
  · by_cases hs : isSingleFrameBuffer bufLen size
    · unfold sliceStart
      rw [if_pos hs]
      unfold isSingleFrameBuffer JsNum.ofNat at hs
      simp only [mul_one, one_mul] at hs
      unfold JsNum.add JsNum.ofNat JsNum.leNat
      simp only [zero_mul, one_mul, mul_one, zero_add]
      omega
    · unfold sliceStart
      rw [if_neg hs]
      unfold isSingleFrameBuffer JsNum.ofNat at hs
      simp only [mul_one, one_mul] at hs
      rcases hlen with hlen | hlen
      · unfold JsNum.mulNat JsNum.add JsNum.leNat
        simp only []
        have hmod : idx % count < count := Nat.mod_lt idx hc
        calc idx % count * size.num * size.den + size.num * size.den
            = (idx % count + 1) * (size.num * size.den) := by ring
          _ ≤ count * (size.num * size.den) :=
            Nat.mul_le_mul_right _ hmod
          _ = (count * size.num) * size.den := by ring
          _ = (bufLen * size.den) * size.den := by rw [hlen]
          _ = bufLen * (size.den * size.den) := by ring
      · exact absurd hlen hs
  · intro buf s e
    refine ⟨buf.take (min s.floorNat buf.length),
      (buf.drop (min s.floorNat buf.length)).drop
        (min e.floorNat buf.length - min s.floorNat buf.length), ?_⟩
    unfold jsSubarray
    rw [List.append_assoc, List.take_append_drop, List.take_append_drop]

/-- Witness for the amended C5 statement on the consistent 5-frame,
size-10, 50-byte layout at frame index 7. -/
theorem C5_slice_in_bounds_for_consistent_layout_witness :
    0 < 5 ∧ (50 * 1 = 5 * 10 ∨ 50 * 1 = 10) ∧
    ((sliceStart 50 (JsNum.ofNat 10) 5 7).add (JsNum.ofNat 10)).leNat 50 :=
  ⟨by decide, by decide,
    (C5_slice_in_bounds_for_consistent_layout 50 5 7 (JsNum.ofNat 10)
      (by decide) (by decide)).1⟩

theorem stepParamChange_idle (st : AppState) (p : Params)
    (hg : st.gifLoaded = true) (hu : st.isUpdating = false) :
    stepParamChange st p = { st with
      isInteractive := true, isUpdating := true, pendingUpdate := false,
      inFlightConv := st.inFlightConv ++ [⟨some st.currentFrameIdx, st.params⟩],
      issuedConv := st.issuedConv ++ [⟨some st.currentFrameIdx, st.params⟩],
      debounceTimer := some st.nextTimerId,
      nextTimerId := st.nextTimerId + 1,
      params := p } := by
  unfold stepParamChange issueConvert
  simp [hg, hu]

theorem issueConvert_idle (st : AppState) (f : Option Nat)
    (hg : st.gifLoaded = true) (hu : st.isUpdating = false) :
    issueConvert st f = { st with
      isUpdating := true, pendingUpdate := false,
      inFlightConv := st.inFlightConv ++ [⟨f, st.params⟩],
      issuedConv := st.issuedConv ++ [⟨f, st.params⟩] } := by
  unfold issueConvert
  simp [hg, hu]

theorem stepTimerFire_armed_idle (st : AppState) (tid : Nat)
    (h : st.debounceTimer = some tid) (hg : st.gifLoaded = true)
    (hu : st.isUpdating = false) :
    stepTimerFire st tid = { st with
      debounceTimer := none, isInteractive := false,
      isUpdating := true, pendingUpdate := false,
      inFlightConv := st.inFlightConv ++ [⟨none, st.params⟩],
      issuedConv := st.issuedConv ++ [⟨none, st.params⟩] } := by
  unfold stepTimerFire issueConvert
  rw [if_pos h]
  simp [hg, hu]

theorem stepTimerFire_armed (st : AppState) (tid : Nat)
    (h : st.debounceTimer = some tid) :
    stepTimerFire st tid =
      issueConvert { st with debounceTimer := none, isInteractive := false }
        none := by
  unfold stepTimerFire
  rw [if_pos h]

theorem stepTimerFire_stale (st : AppState) (tid : Nat)
    (h : st.debounceTimer ≠ some tid) : stepTimerFire st tid = st := by
  unfold stepTimerFire
  rw [if_neg h]

theorem stepTick_frozen (st : AppState) (t : Int)
    (h : st.isInteractive = true) : stepTick st t = st := by
  unfold stepTick
  split
  · rw [if_neg]
    simp [h]
  · rfl

/-- C6: while the interactive flag is raised, autoplay clock callbacks of
any times leave the whole state — in particular `currentFrameIdx` —
unchanged: the callback keeps rescheduling itself but never advances the
frame. -/
theorem C6_interactive_clock_never_advances (st : AppState)
    (times : List Int) (h : st.isInteractive = true) :
    run st (times.map Ev.tick) = st ∧
    (run st (times.map Ev.tick)).currentFrameIdx = st.currentFrameIdx := by
  have hrun : run st (times.map Ev.tick) = st := by
    induction times with
    | nil => rfl
    | cons t ts ih =>
      rw [List.map_cons, run, List.foldl_cons, ← run,
        show step st (.tick t) = stepTick st t from rfl,
        stepTick_frozen st t h]
      exact ih
  exact ⟨hrun, by rw [hrun]⟩

/-- Witness for C6 in a dragging state across three widely spaced tick
times. -/
theorem C6_interactive_clock_never_advances_witness :
    stDrag.isInteractive = true ∧
    (run stDrag ([0, 200, 5000].map Ev.tick)).currentFrameIdx =
      stDrag.currentFrameIdx :=
  ⟨rfl, (C6_interactive_clock_never_advances stDrag [0, 200, 5000] rfl).2⟩

/-- C7: an interactive parameter edit from an idle coordinator raises the
interactive flag, immediately issues exactly one single-frame conversion
for the currently displayed frame, and arms a fresh debounce timer; a
further edit cancels the previous timer (the superseded timer id firing
is a no-op) and re-arms; and when the armed timer fires on an idle
coordinator with no further edits, it clears the interactive flag,
disarms, and issues exactly one full bulk conversion (scope all) at the
edited parameter values. -/
theorem C7_edit_immediate_single_then_debounced_bulk
    (st : AppState) (p q : Params) (b : List Nat) (mw mh : Nat)
    (hg : st.gifLoaded = true) (hu : st.isUpdating = false)
    (hwf : coordWF st) :
    (step st (.paramChange p)).isInteractive = true ∧
    (step st (.paramChange p)).issuedConv =
      st.issuedConv ++ [⟨some st.currentFrameIdx, st.params⟩] ∧
    (step st (.paramChange p)).debounceTimer = some st.nextTimerId ∧
    (step st (.paramChange p)).params = p ∧
    (step (step st (.paramChange p)) (.paramChange q)).debounceTimer =
      some (st.nextTimerId + 1) ∧
    step (step (step st (.paramChange p)) (.paramChange q))
      (.timerFire st.nextTimerId) =
      step (step st (.paramChange p)) (.paramChange q) ∧
    (step (step (step st (.paramChange p)) (.convOk b mw mh))
      (.timerFire st.nextTimerId)).isInteractive = false ∧
    (step (step (step st (.paramChange p)) (.convOk b mw mh))
      (.timerFire st.nextTimerId)).debounceTimer = none ∧
    (step (step (step st (.paramChange p)) (.convOk b mw mh))
      (.timerFire st.nextTimerId)).issuedConv =
      (step (step st (.paramChange p)) (.convOk b mw mh)).issuedConv ++
        [⟨none, p⟩] := by
  have hnil : st.inFlightConv = [] := hwf.2 hu
  have hfl1 : (stepParamChange st p).inFlightConv =
      [⟨some st.currentFrameIdx, st.params⟩] := by
    rw [stepParamChange_idle st p hg hu]
    simp [hnil]
  have hpu1 : (stepParamChange st p).pendingUpdate = false := by
    rw [stepParamChange_idle st p hg hu]
  obtain ⟨d1, d2, d3, d4, d5, d6, d7⟩ := stepConvOk_done
    (stepParamChange st p) ⟨some st.currentFrameIdx, st.params⟩ b mw mh
    hfl1 hpu1
  have d4p : (stepConvOk (stepParamChange st p) b mw mh).params = p := by
    rw [d4, stepParamChange_idle st p hg hu]
  have d5g : (stepConvOk (stepParamChange st p) b mw mh).gifLoaded = true := by
    rw [d5, stepParamChange_idle st p hg hu]
    exact hg
  have d6t : (stepConvOk (stepParamChange st p) b mw mh).debounceTimer =
      some st.nextTimerId := by
    rw [d6, stepParamChange_idle st p hg hu]
  have hg1 : (stepParamChange st p).gifLoaded = true := by
    rw [stepParamChange_idle st p hg hu]
    exact hg
  have hu1 : (stepParamChange st p).isUpdating = true := by
    rw [stepParamChange_idle st p hg hu]
  refine ⟨?_, ?_, ?_, ?_, ?_, ?_, ?_, ?_, ?_⟩
  · show (stepParamChange st p).isInteractive = true
    rw [stepParamChange_idle st p hg hu]
  · show (stepParamChange st p).issuedConv =
      st.issuedConv ++ [⟨some st.currentFrameIdx, st.params⟩]
    rw [stepParamChange_idle st p hg hu]
  · show (stepParamChange st p).debounceTimer = some st.nextTimerId
    rw [stepParamChange_idle st p hg hu]
  · show (stepParamChange st p).params = p
    rw [stepParamChange_idle st p hg hu]
  · show (stepParamChange (stepParamChange st p) q).debounceTimer =
      some (st.nextTimerId + 1)
    rw [stepParamChange_inFlight (stepParamChange st p) q hg1 hu1,
      stepParamChange_idle st p hg hu]
  · show stepTimerFire (stepParamChange (stepParamChange st p) q)
      (st.nextTimerId) = stepParamChange (stepParamChange st p) q
    refine stepTimerFire_stale _ _ ?_
    rw [stepParamChange_inFlight (stepParamChange st p) q hg1 hu1,
      stepParamChange_idle st p hg hu]
    simp
  · show (stepTimerFire (stepConvOk (stepParamChange st p) b mw mh)
      st.nextTimerId).isInteractive = false
    rw [stepTimerFire_armed_idle _ _ d6t d5g d3]
  · show (stepTimerFire (stepConvOk (stepParamChange st p) b mw mh)
      st.nextTimerId).debounceTimer = none
    rw [stepTimerFire_armed_idle _ _ d6t d5g d3]
  · show (stepTimerFire (stepConvOk (stepParamChange st p) b mw mh)
      st.nextTimerId).issuedConv =
      (stepConvOk (stepParamChange st p) b mw mh).issuedConv ++ [⟨none, p⟩]
    rw [stepTimerFire_armed_idle _ _ d6t d5g d3]
    simp [d4p]

/-- Witness for C7 at the idle loaded state with a brightness edit: the
trailing fire issues the bulk call at the edited parameters. -/
theorem C7_edit_immediate_single_then_debounced_bulk_witness :
    stIdle.gifLoaded = true ∧ stIdle.isUpdating = false ∧
    (step (step (step stIdle (.paramChange pB10)) (.convOk [65] 3 4))
      (.timerFire stIdle.nextTimerId)).issuedConv =
      (step (step stIdle (.paramChange pB10)) (.convOk [65] 3 4)).issuedConv
        ++ [⟨none, pB10⟩] :=
  ⟨rfl, rfl,
    (C7_edit_immediate_single_then_debounced_bulk stIdle pB10 pB20 [65] 3 4
      rfl rfl ⟨by decide, fun _ => rfl⟩).2.2.2.2.2.2.2.2⟩

/-- C8 counterexample: a failing preview call is caught, but its error is
written to the developer console only — the user-visible error state
stays empty, contradicting the claim that every failing external call
(bulk conversion *or preview*) is recorded as the latest error for user
display. -/
theorem C8_counterexample_preview_error_not_displayed :
    0 < (run init evsC3).pendingPreview.length ∧
    (step (run init evsC3) (.previewFail 0 "boom")).error = "" ∧
    (step (run init evsC3) (.previewFail 0 "boom")).consoleLog = ["boom"] ∧
    (step (run init evsC3) (.previewFail 0 "boom")).adjustedPreviewUrl =
      (run init evsC3).adjustedPreviewUrl := by
  decide

/-- C8 amended: a failing bulk conversion is caught, recorded as the
latest user-visible error, leaves the Frame Buffer (bytes and metadata)
and the playback state untouched, and releases the in-flight lock in the
`finally` step, so a subsequent request proceeds normally; a failing
preview call is caught and logged to the developer console only — it
does not touch the user-visible error — and likewise corrupts no
state. -/
theorem C8_failure_containment (st : AppState) (msg : String)
    (c : ConvCall) (hfl : st.inFlightConv = [c]) :
    (stepConvErr st msg).error = msg ∧
    (stepConvErr st msg).asciiBuffer = st.asciiBuffer ∧
    (stepConvErr st msg).frameMetadata = st.frameMetadata ∧
    (stepConvErr st msg).currentFrameIdx = st.currentFrameIdx ∧
    (stepConvErr st msg).lastFrameTime = st.lastFrameTime ∧
    (stepConvErr st msg).isInteractive = st.isInteractive ∧
    (stepConvErr st msg).adjustedPreviewUrl = st.adjustedPreviewUrl ∧
    (stepConvErr st msg).isUpdating = false ∧
    (stepConvErr st msg).inFlightConv = [] ∧
    (∀ f, (stepConvErr st msg).gifLoaded = true →
      (issueConvert (stepConvErr st msg) f).isUpdating = true ∧
      (issueConvert (stepConvErr st msg) f).inFlightConv =
        [⟨f, st.params⟩]) ∧
    (∀ (i : Nat) (m : String), i < st.pendingPreview.length →
      (stepPreviewFail st i m).error = st.error ∧
      (stepPreviewFail st i m).asciiBuffer = st.asciiBuffer ∧
      (stepPreviewFail st i m).frameMetadata = st.frameMetadata ∧
      (stepPreviewFail st i m).currentFrameIdx = st.currentFrameIdx ∧
      (stepPreviewFail st i m).adjustedPreviewUrl = st.adjustedPreviewUrl ∧
      (stepPreviewFail st i m).consoleLog = st.consoleLog ++ [m]) := by
  rw [stepConvErr_eq st msg c [] hfl]
  refine ⟨rfl, rfl, rfl, rfl, rfl, rfl, rfl, rfl, rfl, ?_, ?_⟩
  · intro f hgl
    rw [issueConvert_idle _ f hgl rfl]
    exact ⟨rfl, rfl⟩
  · intro i m hi
    unfold stepPreviewFail
    rw [if_pos hi]
    exact ⟨rfl, rfl, rfl, rfl, rfl, rfl⟩

/-- Witness for the amended C8 statement at the busy state: the in-flight
bulk call fails, the error is displayed and the lock released. -/
theorem C8_failure_containment_witness :
    stBusy.inFlightConv = [cBulk] ∧
    (stepConvErr stBusy "fail").error = "fail" ∧
    (stepConvErr stBusy "fail").isUpdating = false :=
  ⟨rfl, (C8_failure_containment stBusy "fail" cBulk rfl).1,
    (C8_failure_containment stBusy "fail" cBulk rfl).2.2.2.2.2.2.2.1⟩

/-- C9: the swap-measure-restore sequence inside a successful conversion
is atomic and invisible: its net effect on the whole state is exactly
the update of the measured grid dimensions `rawW`, `rawH` — in
particular the text content and the transform of the rendered surface end equal
to their values before the measurement began. -/
theorem C9_measurement_swap_restore_invisible (st : AppState)
    (data : List Nat) (divisor mw mh : Nat) :
    measureBlock st data divisor mw mh =
      { st with frameMetadata :=
        { st.frameMetadata with rawW := mw, rawH := mh } } ∧
    (measureBlock st data divisor mw mh).surface = st.surface := by
  exact ⟨rfl, rfl⟩

/-- C10: rendering a frame with no buffer installed (and no override
supplied) or with a zero frame count is a total no-op: the state —
rendered content, `currentFrameIdx`, all frame metadata, and the preview
channel — is returned unchanged, and no modulo or slicing is
performed. -/
theorem C10_renderFrame_noop_without_buffer_or_frames (st : AppState)
    (idx : Nat) (ov : Option (List Nat))
    (h : (ov = none ∧ st.asciiBuffer = none) ∨
      st.frameMetadata.count = 0) :
    renderFrame st idx ov = st := by
  unfold renderFrame
  rcases hov : ov.orElse fun _ => st.asciiBuffer with _ | b
  · simp [hov]
  · simp only [hov]
    rcases h with ⟨h1, h2⟩ | hcount
    · exfalso
      subst h1
      have hb : st.asciiBuffer = some b := hov
      rw [h2] at hb
      cases hb
    · rw [if_pos hcount]

/-- Witness for C10 at the initial state, which has no buffer. -/
theorem C10_renderFrame_noop_without_buffer_or_frames_witness :
    init.asciiBuffer = none ∧ renderFrame init 3 none = init :=
  ⟨rfl, C10_renderFrame_noop_without_buffer_or_frames init 3 none
    (Or.inl ⟨rfl, rfl⟩)⟩

end AsciiStudio
